import Mathlib

/-
Verification of the SAI device-discovery and command-learning core.

The definitions below are a shallow embedding of:
  * backend/utils/optimization_utils.py   (retry_on_exception)
  * backend/database/mongo_handler.py     (insert/find/update over a document store)
  * backend/devices/devices.py            (Device.register_device)
  * backend/devices/network_devices.py    (discovery, retry_register_device)
  * backend/devices/iot_devices.py        (discovery, retry_register_device)
  * backend/devices/device_interaction.py (command learning)

A document collection is embedded as an association list keyed by the
document's string `_id`; Python integers are Nat; a Python function that can
raise is embedded as a value of an explicit outcome type.
-/

namespace SAI

/- ## Retry executor: retry_on_exception (backend/utils/optimization_utils.py, lines 35-59)

The wrapped function is embedded as `f : Nat -> Except eps alpha`, where `f n`
is the outcome of its (n+1)-th invocation (`Except.error e` means the call
raised `e`).  `isRetryable e` embeds membership of `e` in the decorator's
`exceptions` tuple: an exception outside the tuple is not caught by the
`except exceptions` clause and propagates out of the wrapper at once. -/

/-- Outcome of a call of the wrapper produced by `retry_on_exception`:
it returns a value, raises the exception `e`, or raises the
`UnboundLocalError` (a `NameError`) that the trailing `raise e` produces:
Python deletes the `except ... as e` variable when each handler exits, so
after the `while` loop `e` is always unbound. -/
inductive RetryResult (eps alpha : Type) where
  | ok (a : alpha)
  | raised (e : eps)
  | nameError
deriving DecidableEq

/-- One iteration of the `while retries < max_retries` loop of
`retry_on_exception`.  `remaining` is `max_retries - retries` (the loop runs
while it is positive) and `calls` counts invocations of `func` so far, while
`sleeps` accumulates the arguments passed to `time.sleep`.
On a caught exception the counter becomes `retries + 1 = maxRetries - remaining + 1`
and the loop sleeps `delay * 2 ^ (retries - 1)` only if `retries < max_retries`.
When the loop exhausts, the function executes `raise e`; the handler-scoped
`e` has been deleted at the end of every except block, so this always raises
`UnboundLocalError`, never the last caught exception. -/
def retryGo (isRetryable : eps → Bool) (delay maxRetries : Nat) (f : Nat → Except eps alpha) :
    Nat → Nat → List Nat → RetryResult eps alpha × Nat × List Nat
  | 0, calls, sleeps => (RetryResult.nameError, calls, sleeps)
  | remaining + 1, calls, sleeps =>
      match f calls with
      | Except.ok a => (RetryResult.ok a, calls + 1, sleeps)
      | Except.error e =>
          if isRetryable e then
            let retries := maxRetries - remaining
            retryGo isRetryable delay maxRetries f remaining (calls + 1)
              (if retries < maxRetries then sleeps ++ [delay * 2 ^ (retries - 1)] else sleeps)
          else (RetryResult.raised e, calls + 1, sleeps)

/-- The wrapper produced by `retry_on_exception(max_retries, delay, exceptions)`
applied to `func` embedded as `f`.  Returns the call outcome, the number of
invocations of `func`, and the list of back-off waits in order. -/
def retry_on_exception (maxRetries delay : Nat) (isRetryable : eps → Bool)
    (f : Nat → Except eps alpha) : RetryResult eps alpha × Nat × List Nat :=
  retryGo isRetryable delay maxRetries f maxRetries 0 []

/-- Run of the retry loop on a function that raises a retryable error on every
invocation: all `remaining` further attempts are consumed, the exhausted loop
falls through to `raise e` - which raises `UnboundLocalError` since the
except variable was deleted at handler exit - and the waits are
`delay * 2 ^ k` for the exponents remaining in the schedule. -/
theorem retryGo_allFail {eps alpha : Type} (isRetryable : eps → Bool) (delay maxRetries : Nat)
    (g : Nat → eps) (hR : ∀ n, isRetryable (g n) = true) :
    ∀ r c (sleeps : List Nat), 1 ≤ r → c + r = maxRetries →
      retryGo isRetryable delay maxRetries
          (fun n => (Except.error (g n) : Except eps alpha)) r c sleeps =
        (RetryResult.nameError, maxRetries,
          sleeps ++ (List.range' c (r - 1)).map (fun k => delay * 2 ^ k)) := by
  intro r
  induction r with
  | zero => intro c sleeps h1 _; omega
  | succ r ih =>
    intro c sleeps _ hc
    by_cases hr : r = 0
    · subst hr
      have hc1 : c + 1 = maxRetries := by omega
      have hcond : ¬ (maxRetries - 0 < maxRetries) := by omega
      simp only [retryGo, hR, if_true, hcond, if_false, ite_false]
      simp [retryGo, hc1]
    · have hr1 : 1 ≤ r := by omega
      have hcond : maxRetries - r < maxRetries := by omega
      have hret : maxRetries - r - 1 = c := by omega
      simp only [retryGo, hR, if_true, hcond, ite_true]
      rw [hret]
      have hrec := ih (c + 1) (sleeps ++ [delay * 2 ^ c]) hr1 (by omega)
      rw [hrec]
      have hr2 : r + 1 - 1 = (r - 1) + 1 := by omega
      rw [hr2, List.range'_succ, List.map_cons, List.append_assoc]
      rfl

/-- C1 (code bug): `retry_on_exception` with `max_retries = N >= 1` applied
to an operation that raises a retryable error on every invocation invokes the
operation exactly `N` times - but it then raises `UnboundLocalError`, not the
last error: Python deletes the `except ... as e` variable when each handler
exits, so the trailing `raise e` (whose comment says it re-raises the last
exception) never sees the caught error.  An operation whose first invocation
raises an error outside the retryable set is still invoked exactly once with
that error surfaced immediately and no back-off wait. -/
theorem retry_exhaustion_unbound_local {eps alpha : Type} (N delay : Nat)
    (isRetryable : eps → Bool) (g : Nat → eps) (f : Nat → Except eps alpha) (hN : 1 ≤ N) :
    ((∀ n, f n = Except.error (g n)) → (∀ n, isRetryable (g n) = true) →
        retry_on_exception N delay isRetryable f =
          (RetryResult.nameError, N,
            (List.range' 0 (N - 1)).map (fun k => delay * 2 ^ k))) ∧
    (∀ e, f 0 = Except.error e → isRetryable e = false →
        retry_on_exception N delay isRetryable f = (RetryResult.raised e, 1, [])) := by
  constructor
  · intro hf hR
    have hfe : f = fun n => (Except.error (g n) : Except eps alpha) := funext hf
    rw [retry_on_exception, hfe,
      retryGo_allFail isRetryable delay N g hR N 0 [] hN (by omega)]
    rfl
  · intro e hf0 hRe
    obtain ⟨m, rfl⟩ : ∃ m, N = m + 1 := ⟨N - 1, by omega⟩
    simp [retry_on_exception, retryGo, hf0, hRe]

/-- C1 witness: `max_retries = 3` on an always-failing retryable operation
gives three invocations, waits `1, 2`, and the terminal `UnboundLocalError`;
a non-retryable error is surfaced after one invocation. -/
theorem retry_exhaustion_unbound_local_witness :
    retry_on_exception 3 1 (fun _ : Unit => true) (fun _ => (Except.error () : Except Unit Unit)) =
      (RetryResult.nameError, 3, [1, 2]) ∧
    retry_on_exception 3 1 (fun _ : Unit => false) (fun _ => (Except.error () : Except Unit Unit)) =
      (RetryResult.raised (), 1, []) := by
  constructor
  · have h := (retry_exhaustion_unbound_local 3 1 (fun _ : Unit => true) (fun _ => ())
      (fun _ => (Except.error () : Except Unit Unit)) (by omega)).1 (fun _ => rfl) (fun _ => rfl)
    simpa using h
  · exact (retry_exhaustion_unbound_local 3 1 (fun _ : Unit => false) (fun _ => ())
      (fun _ => (Except.error () : Except Unit Unit)) (by omega)).2 () rfl rfl

/-- C2 counterexample: `retry_on_exception` applies no cap to its back-off.
With base delay 2 (the base delay the spec pairs with `max_delay = 20`) and
six attempts on an always-failing retryable operation, the recorded waits are
`[2, 4, 8, 16, 32]`: the fifth wait is 32, which exceeds 20, so the wait is
not `min(base * 2 ^ (k-1) [+ jitter], max_delay)` and can exceed any fixed
maximum delay. -/
theorem retry_backoff_exceeds_max_delay :
    (retry_on_exception 6 2 (fun _ : Unit => true)
        (fun _ => (Except.error () : Except Unit Unit))).2.2 = [2, 4, 8, 16, 32] ∧
    ((retry_on_exception 6 2 (fun _ : Unit => true)
        (fun _ => (Except.error () : Except Unit Unit))).2.2.any (fun w => 20 < w)) = true := by
  constructor
  · rfl
  · rfl

/-- C2 amended: for a run of `retry_on_exception` with base delay `d` on an
operation failing with a retryable error on every invocation, the wait
inserted before retry `k+1` is exactly `d * 2 ^ (k - 1)` for `k = 1 .. N-1`:
exponential, with no jitter term and no `max_delay` cap. -/
theorem retry_backoff_exact {eps alpha : Type} (N delay : Nat) (isRetryable : eps → Bool)
    (g : Nat → eps) (f : Nat → Except eps alpha) (hN : 1 ≤ N)
    (hf : ∀ n, f n = Except.error (g n)) (hR : ∀ n, isRetryable (g n) = true) :
    (retry_on_exception N delay isRetryable f).2.2 =
      (List.range' 0 (N - 1)).map (fun k => delay * 2 ^ k) := by
  have hfe : f = fun n => (Except.error (g n) : Except eps alpha) := funext hf
  rw [retry_on_exception, hfe,
    retryGo_allFail isRetryable delay N g hR N 0 [] hN (by omega)]
  simp

/-- C2 amended witness: with `d = 3` and `N = 4` the waits are `3, 6, 12`. -/
theorem retry_backoff_exact_witness :
    (retry_on_exception 4 3 (fun _ : Unit => true)
        (fun _ => (Except.error () : Except Unit Unit))).2.2 = [3, 6, 12] := by
  have h := retry_backoff_exact 4 3 (fun _ : Unit => true) (fun _ => ())
    (fun _ => (Except.error () : Except Unit Unit)) (by omega) (fun _ => rfl) (fun _ => rfl)
  simpa using h

/- ## retry_register_device (backend/devices/network_devices.py lines 95-123,
backend/devices/iot_devices.py lines 91-119)

The body invokes `register_device` once per tenacity attempt.  The outcome of
the n-th invocation of `register_device` is embedded as `reg n : RegOutcome`:
it returns a boolean or raises an exception. -/

/-- Exceptions distinguished by `retry_register_device`. -/
inductive RegExn where
  | connError
  | timeoutError
  | otherError
deriving DecidableEq

/-- Outcome of one invocation of `register_device`. -/
inductive RegOutcome where
  | ok (b : Bool)
  | raises (e : RegExn)
deriving DecidableEq

/-- How the `with attempt:` block exits, per the source's try/except:
`return True` when `register_device` returned truthy; fall through normally
when it returned falsy or raised `ConnectionError`/`TimeoutError` (caught and
logged by the first except clause); `break` out of the retry loop when it
raised any other exception (caught by the second except clause). -/
inductive BlockExit where
  | retTrue
  | normalExit
  | brk
deriving DecidableEq

/-- Exit mode of the attempt block for a given `register_device` outcome. -/
def register_block_exit : RegOutcome → BlockExit
  | RegOutcome.ok true => BlockExit.retTrue
  | RegOutcome.ok false => BlockExit.normalExit
  | RegOutcome.raises RegExn.connError => BlockExit.normalExit
  | RegOutcome.raises RegExn.timeoutError => BlockExit.normalExit
  | RegOutcome.raises RegExn.otherError => BlockExit.brk

/-- Exception escaping the attempt block into tenacity's attempt manager.
Every path of the source body catches its exception inside the block's own
try/except, so no exception ever reaches the attempt manager. -/
def escaped_exception : RegOutcome → Option RegExn := fun _ => none

/-- Tenacity `retry_if_exception_type(types)`: retry exactly when the attempt
captured an exception whose type matches; an attempt that produced a result
(no exception) is final. -/
def retry_if_exception_type (matchesExn : RegExn → Bool) : Option RegExn → Bool
  | some e => matchesExn e
  | none => false

/-- Retry predicate of the network variant:
`retry_if_exception_type((ConnectionError, TimeoutError))`. -/
def net_retryable_exn : RegExn → Bool
  | RegExn.connError => true
  | RegExn.timeoutError => true
  | RegExn.otherError => false

/-- Retry predicate of the IoT variant: `retry_if_exception_type(Exception)`
(every exception matches). -/
def iot_retryable_exn : RegExn → Bool := fun _ => true

/-- Result of a call of `retry_register_device`: the returned boolean, or the
`RetryError` tenacity raises when `stop_after_attempt` exhausts while the
retry predicate still asks for a retry. -/
inductive RetryRegResult where
  | returned (b : Bool)
  | retryError
deriving DecidableEq

/-- The `async for attempt in retry_strategy:` loop with
`stop=stop_after_attempt(5)`.  `fuel` is the number of attempts still allowed
and `n` the 1-based attempt number; the pair returned is the call result and
the number of invocations of `register_device`. -/
def retry_register_loop (matchesExn : RegExn → Bool) (reg : Nat → RegOutcome) :
    Nat → Nat → RetryRegResult × Nat
  | 0, n => (RetryRegResult.retryError, n - 1)
  | fuel + 1, n =>
      match register_block_exit (reg n) with
      | BlockExit.retTrue => (RetryRegResult.returned true, n)
      | BlockExit.brk => (RetryRegResult.returned false, n)
      | BlockExit.normalExit =>
          if retry_if_exception_type matchesExn (escaped_exception (reg n)) then
            retry_register_loop matchesExn reg fuel (n + 1)
          else (RetryRegResult.returned false, n)

/-- `retry_register_device` with the source's
`AsyncRetrying(stop=stop_after_attempt(5), wait=wait_exponential(min=2, max=20), retry=...)`,
falling through to `return False` when the loop ends without a `return True`. -/
def retry_register_device (matchesExn : RegExn → Bool) (reg : Nat → RegOutcome) :
    RetryRegResult × Nat :=
  retry_register_loop matchesExn reg 5 1

/-- C3: the configured retry of `retry_register_device` never fires.  Every
path of the attempt body catches its exception inside the block, so tenacity's
`retry_if_exception_type` predicate never sees an exception: for every retry
predicate and every behaviour of `register_device`, the operation is invoked
exactly once.  In particular, when `register_device` raises `ConnectionError`
on every invocation, the call returns failure after a single invocation
instead of retrying up to 5 times. -/
theorem retry_register_never_retries :
    (∀ (matchesExn : RegExn → Bool) (reg : Nat → RegOutcome),
        (retry_register_device matchesExn reg).2 = 1) ∧
    retry_register_device net_retryable_exn (fun _ => RegOutcome.raises RegExn.connError) =
      (RetryRegResult.returned false, 1) := by
  constructor
  · intro matchesExn reg
    rw [retry_register_device, retry_register_loop]
    match h : register_block_exit (reg 1) with
    | BlockExit.retTrue => simp [h]
    | BlockExit.brk => simp [h]
    | BlockExit.normalExit => simp [h, escaped_exception, retry_if_exception_type]
  · rfl

/- ## Document store (backend/database/mongo_handler.py)

A collection is an association list from the document's `_id` to the rest of
the document; MongoDB's unique index on `_id` makes `insert_one` raise
`DuplicateKeyError` when the id is already present. -/

/-- A document collection keyed by `_id`. -/
abbrev Store (alpha : Type) : Type := List (String × alpha)

/-- `find_document(collection, {"_id": id})`: `find_one` returns the first
document whose `_id` equals `id`, or `None`. -/
def find_document (id : String) : Store alpha → Option alpha
  | [] => none
  | p :: rest => if p.1 = id then some p.2 else find_document id rest

/-- `insert_document(collection, data)` (mongo_handler.py lines 38-50):
`insert_one` appends the document and returns its id, while inserting a
duplicate `_id` raises `DuplicateKeyError`, which the handler catches and
turns into `None` with the collection untouched. -/
def insert_document (id : String) (doc : alpha) (coll : Store alpha) :
    Option String × Store alpha :=
  if (find_document id coll).isSome then (none, coll) else (some id, coll ++ [(id, doc)])

/-- `update_document(collection, {"_id": id}, patch)`: `update_one` applies
the patch (embedded as the function `f`) to the first document matching the
id, returning whether a document matched. -/
def update_document (id : String) (f : alpha → alpha) : Store alpha → Bool × Store alpha
  | [] => (false, [])
  | p :: rest =>
      if p.1 = id then (true, (p.1, f p.2) :: rest)
      else
        let r := update_document id f rest
        (r.1, p :: r.2)

/-- Number of documents of the collection carrying the given `_id`. -/
def countId (id : String) (coll : Store alpha) : Nat :=
  (coll.filter (fun p => p.1 = id)).length

theorem find_document_none_countId {coll : Store alpha} {id : String}
    (h : find_document id coll = none) : countId id coll = 0 := by
  induction coll with
  | nil => rfl
  | cons p rest ih =>
    rw [find_document] at h
    by_cases hp : p.1 = id
    · simp [hp] at h
    · simp only [hp, if_false, ite_false] at h
      have h2 := ih h
      simp only [countId, List.filter_cons] at h2 ⊢
      simp [hp, h2]

theorem find_document_append_self {coll : Store alpha} {id : String} {doc : alpha}
    (h : find_document id coll = none) :
    find_document id (coll ++ [(id, doc)]) = some doc := by
  induction coll with
  | nil => simp [find_document]
  | cons p rest ih =>
    rw [find_document] at h
    by_cases hp : p.1 = id
    · simp [hp] at h
    · simp only [List.cons_append, find_document, hp, if_false, ite_false] at h ⊢
      exact ih h

theorem find_update_self (id : String) (f : alpha → alpha) (coll : Store alpha) :
    find_document id (update_document id f coll).2 = (find_document id coll).map f := by
  induction coll with
  | nil => rfl
  | cons p rest ih =>
    by_cases hp : p.1 = id
    · simp [update_document, find_document, hp]
    · simp [update_document, find_document, hp, ih]

theorem find_update_other {id id' : String} (hne : id' ≠ id) (f : alpha → alpha)
    (coll : Store alpha) :
    find_document id' (update_document id f coll).2 = find_document id' coll := by
  have hne2 : ¬ id = id' := fun h => hne h.symm
  induction coll with
  | nil => rfl
  | cons p rest ih =>
    by_cases hp : p.1 = id
    · simp [update_document, find_document, hp, hne2]
    · by_cases hp' : p.1 = id'
      · simp [update_document, find_document, hp, hp', hne]
      · simp [update_document, find_document, hp, hp', ih]

/- ## Device registration (backend/devices/devices.py lines 24-47,
backend/devices/network_devices.py lines 46-81, backend/devices/iot_devices.py
lines 45-77) -/

/-- The `device_data` dict built by `scan_ip_snmp` for a responding address:
`{"ip_address": ip, "status": "active", "commands": []}`. -/
structure DeviceData where
  ip_address : String
  status : String
  commands : List String
deriving DecidableEq

/-- The document `register_device` stores:
`{"_id": device_id, "device_location": ..., "commands": ...}` where the
discovery callers pass the whole `device_data` dict as the `commands`
argument. -/
structure StoredDeviceDoc where
  device_location : String
  commands : DeviceData
deriving DecidableEq

/-- `Device.register_device(device_id, device_location, commands)`: builds the
document and inserts it, reporting whether `insert_document` returned an id. -/
def register_device (id location : String) (data : DeviceData)
    (coll : Store StoredDeviceDoc) : Bool × Store StoredDeviceDoc :=
  let r := insert_document id (StoredDeviceDoc.mk location data) coll
  (r.1.isSome, r.2)

/-- Location string passed by the network discovery caller. -/
def networkLocation : String := "Network Device"

/-- Location string passed by the IoT discovery caller. -/
def iotLocation : String := "IoT Device"

/-- Registration step of the network `scan_ip_snmp` (network_devices.py lines
62-65): `get_device(device_id)` first; when a record exists, skip registration
entirely; otherwise register through `retry_register_device`, which invokes
`register_device` exactly once and returns its boolean, since every
exception of the attempt body is swallowed before tenacity sees it and
`register_device` reports store failures as `False` rather than raising. -/
def network_register_step (id : String) (data : DeviceData)
    (coll : Store StoredDeviceDoc) : Bool × Store StoredDeviceDoc :=
  match find_document id coll with
  | some _ => (false, coll)
  | none => register_device id networkLocation data coll

/-- Registration step of the IoT `scan_ip_snmp` (iot_devices.py lines 54-62):
`retry_register_device` unconditionally, with no existence check. -/
def iot_register_step (id : String) (data : DeviceData)
    (coll : Store StoredDeviceDoc) : Bool × Store StoredDeviceDoc :=
  register_device id iotLocation data coll

/-- C4: for a device id not yet in the store, the network registration step
registers it; running the step a second time for the same id observes the
existing record and skips registration (the store is returned unchanged and
no error is raised), leaving exactly one persisted record for that id. -/
theorem network_register_idempotent (id : String) (d1 d2 : DeviceData)
    (coll : Store StoredDeviceDoc) (h : find_document id coll = none) :
    (network_register_step id d1 coll).1 = true ∧
    network_register_step id d2 (network_register_step id d1 coll).2 =
      (false, (network_register_step id d1 coll).2) ∧
    countId id (network_register_step id d1 coll).2 = 1 := by
  have hstep : network_register_step id d1 coll =
      (true, coll ++ [(id, StoredDeviceDoc.mk networkLocation d1)]) := by
    rw [network_register_step, h]
    simp [register_device, insert_document, h]
  refine ⟨by rw [hstep], ?_, ?_⟩
  · rw [hstep]
    rw [network_register_step, find_document_append_self h]
  · rw [hstep]
    have h0 := find_document_none_countId h
    simp only [countId, List.filter_append, List.length_append] at h0 ⊢
    rw [h0]
    simp [List.filter]

/-- C4 witness: registering `network_device_7` twice into an empty store. -/
theorem network_register_idempotent_witness :
    (network_register_step ("network_device_7") (DeviceData.mk ("192.168.1.7") ("active") [])
        []).1 = true ∧
    network_register_step ("network_device_7") (DeviceData.mk ("192.168.1.7") ("active") [])
        (network_register_step ("network_device_7")
          (DeviceData.mk ("192.168.1.7") ("active") []) []).2 =
      (false, (network_register_step ("network_device_7")
          (DeviceData.mk ("192.168.1.7") ("active") []) []).2) ∧
    countId ("network_device_7")
      (network_register_step ("network_device_7")
        (DeviceData.mk ("192.168.1.7") ("active") []) []).2 = 1 :=
  network_register_idempotent ("network_device_7")
    (DeviceData.mk ("192.168.1.7") ("active") [])
    (DeviceData.mk ("192.168.1.7") ("active") []) [] rfl

/-- Stored device data of a first discovery pass. -/
def iotOldData : DeviceData := DeviceData.mk ("192.168.1.5") ("active") []

/-- Newly supplied device data of a later pass, differing in `status`. -/
def iotNewData : DeviceData := DeviceData.mk ("192.168.1.5") ("inactive") []

/-- C8 counterexample: re-registering the already-registered `iot_device_5`
with new device data does not succeed and does not store the new data: the
unconditional `insert_one` hits the duplicate `_id`, `insert_document` returns
`None`, registration reports failure and the stored record keeps the old
data. -/
theorem iot_register_not_upsert :
    iot_register_step ("iot_device_5") iotNewData
        [(("iot_device_5"), StoredDeviceDoc.mk iotLocation iotOldData)] =
      (false, [(("iot_device_5"), StoredDeviceDoc.mk iotLocation iotOldData)]) ∧
    iotOldData ≠ iotNewData := by
  constructor
  · rfl
  · intro h
    exact absurd (congrArg DeviceData.status h) (by decide)

/-- C8 amended: IoT registration is attempted unconditionally on every
discovery pass (no existence check, unlike network devices), but it is an
insert, not an upsert: a fresh `device_id` is inserted and reported
successful, while re-registering an existing `device_id` reports failure and
leaves the stored record unchanged. -/
theorem iot_register_insert_only (id : String) (d : DeviceData)
    (coll : Store StoredDeviceDoc) :
    (find_document id coll = none →
        iot_register_step id d coll =
          (true, coll ++ [(id, StoredDeviceDoc.mk iotLocation d)])) ∧
    (∀ doc, find_document id coll = some doc →
        iot_register_step id d coll = (false, coll)) := by
  constructor
  · intro h
    simp [iot_register_step, register_device, insert_document, h]
  · intro doc h
    simp [iot_register_step, register_device, insert_document, h]

/-- C8 amended witness: inserting `iot_device_5` into the empty store succeeds;
re-registering it with new data fails and leaves the store unchanged. -/
theorem iot_register_insert_only_witness :
    iot_register_step ("iot_device_5") iotOldData [] =
      (true, [(("iot_device_5"), StoredDeviceDoc.mk iotLocation iotOldData)]) ∧
    iot_register_step ("iot_device_5") iotNewData
        [(("iot_device_5"), StoredDeviceDoc.mk iotLocation iotOldData)] =
      (false, [(("iot_device_5"), StoredDeviceDoc.mk iotLocation iotOldData)]) := by
  constructor
  · have h := (iot_register_insert_only ("iot_device_5") iotOldData []).1 rfl
    simpa using h
  · exact (iot_register_insert_only ("iot_device_5") iotNewData
      [(("iot_device_5"), StoredDeviceDoc.mk iotLocation iotOldData)]).2
      (StoredDeviceDoc.mk iotLocation iotOldData) rfl

/- ## Adaptive command learner (backend/devices/device_interaction.py)

Documents of the `devices` collection as the learner touches them: a
`device_location` and a `commands` list.  The command-execution transport is
an external collaborator: the source simulates it (`# simulate for now`), so
it is modelled from the spec as an oracle `exec : String -> Bool` saying
whether executing a command against the device succeeds. -/

/-- A `devices` document as read and patched by `DeviceInteraction`. -/
structure DeviceRecord where
  device_location : String
  commands : List String
deriving DecidableEq

/-- Status field of the result dict returned by the interaction methods. -/
inductive CmdStatus where
  | success
  | error
deriving DecidableEq

/-- The patch `{"$push": {"commands": command}}`: appends to the array. -/
def push_command (cmd : String) : DeviceRecord → DeviceRecord :=
  fun d => DeviceRecord.mk d.device_location (d.commands ++ [cmd])

/-- The patch `{"$set": {"commands": cmds}}`: replaces the array. -/
def set_commands (cmds : List String) : DeviceRecord → DeviceRecord :=
  fun d => DeviceRecord.mk d.device_location cmds

/-- `_execute_unknown_command(device_id, command, parameters)` (lines 95-117).
Modelled from the spec: the external command-execution transport decides
success; the source stubs it with an always-success result.  On success the
command is `$push`-ed onto the device's `commands` and a success dict
returned; on failure the except path returns an error dict with no update. -/
def execute_unknown_command (execOracle : String → Bool) (coll : Store DeviceRecord)
    (id cmd : String) : CmdStatus × Store DeviceRecord :=
  if execOracle cmd then
    (CmdStatus.success, (update_document id (push_command cmd) coll).2)
  else
    (CmdStatus.error, coll)

/-- The fixed probe vocabulary of `_try_and_learn_device` (line 224). -/
def possible_commands : List String := ["turn_on", "turn_off", "get_status", "set_mode"]

/-- The `for command in possible_commands:` loop of `_try_and_learn_device`
(lines 226-229): probe each candidate through `_execute_unknown_command`,
collecting the ones that report success. -/
def try_and_learn_loop (execOracle : String → Bool) (id : String) :
    List String → Store DeviceRecord → List String × Store DeviceRecord
  | [], coll => ([], coll)
  | cmd :: rest, coll =>
      let r := execute_unknown_command execOracle coll id cmd
      let r2 := try_and_learn_loop execOracle id rest r.2
      (if r.1 = CmdStatus.success then cmd :: r2.1 else r2.1, r2.2)

/-- `_try_and_learn_device(device_id)` (lines 211-240): run the probe loop;
if any command was learned, `$set` the device's `commands` to the learned
list and report success, otherwise report failure with no update. -/
def try_and_learn_device (execOracle : String → Bool) (coll : Store DeviceRecord)
    (id : String) : CmdStatus × Store DeviceRecord :=
  let r := try_and_learn_loop execOracle id possible_commands coll
  if r.1.isEmpty then (CmdStatus.error, r.2)
  else (CmdStatus.success, (update_document id (set_commands r.1) r.2).2)

/-- `learn_device_usage(device_id)` (lines 182-209).  The documentation file
collaborator is modelled from the spec as `doc : Option (List String)`:
`none` when `load_file` returned a falsy artifact, `some cmds` when the
loaded JSON parsed to a dict whose `commands` key holds `cmds`.  With no
artifact the call falls back to trial and error; with an artifact it
`$set`s the parsed commands when non-empty and otherwise reports an error. -/
def learn_device_usage (doc : Option (List String)) (execOracle : String → Bool)
    (coll : Store DeviceRecord) (id : String) : CmdStatus × Store DeviceRecord :=
  match doc with
  | none => try_and_learn_device execOracle coll id
  | some device_commands =>
      if device_commands.isEmpty then (CmdStatus.error, coll)
      else (CmdStatus.success, (update_document id (set_commands device_commands) coll).2)

/-- Commands currently stored for a device id (empty when absent). -/
def commandsAt (coll : Store DeviceRecord) (id : String) : List String :=
  ((find_document id coll).map DeviceRecord.commands).getD []

theorem try_and_learn_loop_learned (execOracle : String → Bool) (id : String) :
    ∀ (cs : List String) (coll : Store DeviceRecord),
      (try_and_learn_loop execOracle id cs coll).1 = cs.filter execOracle := by
  intro cs
  induction cs with
  | nil => intro coll; rfl
  | cons cmd rest ih =>
    intro coll
    by_cases hc : execOracle cmd
    · simp [try_and_learn_loop, execute_unknown_command, hc, List.filter_cons, ih]
    · simp [try_and_learn_loop, execute_unknown_command, hc, List.filter_cons, ih]

theorem try_and_learn_loop_find (execOracle : String → Bool) (id : String) :
    ∀ (cs : List String) (coll : Store DeviceRecord),
      find_document id (try_and_learn_loop execOracle id cs coll).2 =
        (find_document id coll).map
          (fun d => DeviceRecord.mk d.device_location (d.commands ++ cs.filter execOracle)) := by
  intro cs
  induction cs with
  | nil =>
    intro coll
    cases h : find_document id coll <;> simp [try_and_learn_loop, h]
  | cons cmd rest ih =>
    intro coll
    by_cases hc : execOracle cmd
    · simp only [try_and_learn_loop, execute_unknown_command, hc, if_true, ite_true]
      rw [ih, find_update_self]
      cases h : find_document id coll <;>
        simp [h, push_command, List.filter_cons, hc, List.append_assoc]
    · simp only [try_and_learn_loop, execute_unknown_command, hc, if_false, ite_false]
      rw [ih]
      cases h : find_document id coll <;> simp [h, List.filter_cons, hc]

theorem try_and_learn_loop_nofail (execOracle : String → Bool) (id : String) :
    ∀ (cs : List String) (coll : Store DeviceRecord), cs.filter execOracle = [] →
      try_and_learn_loop execOracle id cs coll = ([], coll) := by
  intro cs
  induction cs with
  | nil => intro coll _; rfl
  | cons cmd rest ih =>
    intro coll hf
    rw [List.filter_cons] at hf
    by_cases hc : execOracle cmd
    · simp [hc] at hf
    · simp only [hc, if_false, ite_false] at hf
      simp [try_and_learn_loop, execute_unknown_command, hc, ih _ hf]

/-- Shared failure case: when no candidate of the vocabulary succeeds,
`_try_and_learn_device` reports an error and leaves the store untouched. -/
theorem try_and_learn_device_nofail (execOracle : String → Bool)
    (coll : Store DeviceRecord) (id : String)
    (hf : possible_commands.filter execOracle = []) :
    try_and_learn_device execOracle coll id = (CmdStatus.error, coll) := by
  rw [try_and_learn_device, try_and_learn_loop_nofail execOracle id possible_commands coll hf]
  rfl

/-- C5: over any command-execution oracle, when at least one candidate of the
probe vocabulary succeeds, trial-and-error learning reports success and
persists exactly the succeeding candidates (in vocabulary order) as the
device's stored commands; when no candidate succeeds, it reports an error and
performs no store update at all. -/
theorem try_and_learn_device_spec (execOracle : String → Bool)
    (coll : Store DeviceRecord) (id : String) (h : (find_document id coll).isSome) :
    (possible_commands.filter execOracle ≠ [] →
        (try_and_learn_device execOracle coll id).1 = CmdStatus.success ∧
        (find_document id (try_and_learn_device execOracle coll id).2).map
            DeviceRecord.commands = some (possible_commands.filter execOracle)) ∧
    (possible_commands.filter execOracle = [] →
        try_and_learn_device execOracle coll id = (CmdStatus.error, coll)) := by
  refine ⟨?_, try_and_learn_device_nofail execOracle coll id⟩
  intro hne
  obtain ⟨d, hd⟩ := Option.isSome_iff_exists.mp h
  have hloop1 := try_and_learn_loop_learned execOracle id possible_commands coll
  have hloop2 := try_and_learn_loop_find execOracle id possible_commands coll
  rw [hd] at hloop2
  constructor
  · rw [try_and_learn_device]
    simp only [hloop1, List.isEmpty_iff]
    simp [hne]
  · rw [try_and_learn_device]
    simp only [hloop1, List.isEmpty_iff]
    simp only [hne, if_false, ite_false]
    rw [find_update_self, hloop2]
    simp [set_commands, hloop1]

/-- C5 witness: with a stored record for `iot_device_7` and an oracle on which
only `get_status` succeeds, learning reports success and persists exactly
`["get_status"]`; with an oracle on which nothing succeeds, the call fails and
the store is unchanged. -/
theorem try_and_learn_device_spec_witness :
    (try_and_learn_device (fun c => c == "get_status")
        [(("iot_device_7"), DeviceRecord.mk iotLocation [])] ("iot_device_7")).1 =
      CmdStatus.success ∧
    (find_document ("iot_device_7")
        (try_and_learn_device (fun c => c == "get_status")
          [(("iot_device_7"), DeviceRecord.mk iotLocation [])] ("iot_device_7")).2).map
        DeviceRecord.commands = some ["get_status"] ∧
    try_and_learn_device (fun _ => false)
        [(("iot_device_7"), DeviceRecord.mk iotLocation [])] ("iot_device_7") =
      (CmdStatus.error, [(("iot_device_7"), DeviceRecord.mk iotLocation [])]) := by
  have h1 := (try_and_learn_device_spec (fun c => c == "get_status")
      [(("iot_device_7"), DeviceRecord.mk iotLocation [])] ("iot_device_7")
      (by decide)).1 (by decide)
  have h2 := (try_and_learn_device_spec (fun _ => false)
      [(("iot_device_7"), DeviceRecord.mk iotLocation [])] ("iot_device_7")
      (by decide)).2 (by decide)
  refine ⟨h1.1, ?_, h2⟩
  have h3 := h1.2
  simpa using h3

/-- Concrete store used to exhibit the documentation-fallback behaviour. -/
def learnStore : Store DeviceRecord := [(("iot_device_9"), DeviceRecord.mk iotLocation [])]

/-- Oracle on which only `get_status` succeeds. -/
def getStatusOracle : String → Bool := fun c => c == "get_status"

/-- C6 counterexample: with a documentation artifact that yields an empty
command list and a transport on which `get_status` would succeed,
`learn_device_usage` reports an error and performs no update - it does not
fall back to trial and error, whereas with no artifact at all the very same
call succeeds through trial-and-error learning.  The two runs differ, so an
empty-yield artifact is not handled "exactly as when no documentation
artifact exists". -/
theorem learn_device_usage_no_fallback :
    learn_device_usage (some []) getStatusOracle learnStore ("iot_device_9") =
      (CmdStatus.error, learnStore) ∧
    learn_device_usage none getStatusOracle learnStore ("iot_device_9") ≠
      learn_device_usage (some []) getStatusOracle learnStore ("iot_device_9") := by
  constructor
  · rfl
  · decide

/-- C6 amended: trial-and-error is the fallback only when no documentation
artifact is loaded; an artifact yielding an empty command list makes
`learn_device_usage` report an error with no store update and no
trial-and-error probing, and an artifact yielding a non-empty list is
persisted (replace semantics) with trial-and-error skipped. -/
theorem learn_device_usage_branches (doc : Option (List String))
    (execOracle : String → Bool) (coll : Store DeviceRecord) (id : String) :
    (doc = some [] → learn_device_usage doc execOracle coll id = (CmdStatus.error, coll)) ∧
    (doc = none → learn_device_usage doc execOracle coll id =
        try_and_learn_device execOracle coll id) ∧
    (∀ cmds, doc = some cmds → cmds ≠ [] →
        learn_device_usage doc execOracle coll id =
          (CmdStatus.success, (update_document id (set_commands cmds) coll).2)) := by
  refine ⟨?_, ?_, ?_⟩
  · intro h; subst h; rfl
  · intro h; subst h; rfl
  · intro cmds h hne
    subst h
    simp [learn_device_usage, List.isEmpty_iff, hne]

/-- C6 amended witness: the three branches at concrete inputs. -/
theorem learn_device_usage_branches_witness :
    learn_device_usage (some []) getStatusOracle learnStore ("iot_device_9") =
      (CmdStatus.error, learnStore) ∧
    learn_device_usage none getStatusOracle learnStore ("iot_device_9") =
      try_and_learn_device getStatusOracle learnStore ("iot_device_9") ∧
    learn_device_usage (some ["reboot"]) getStatusOracle learnStore ("iot_device_9") =
      (CmdStatus.success,
        (update_document ("iot_device_9") (set_commands ["reboot"]) learnStore).2) := by
  refine ⟨?_, ?_, ?_⟩
  · exact (learn_device_usage_branches (some []) getStatusOracle learnStore
      ("iot_device_9")).1 rfl
  · exact (learn_device_usage_branches none getStatusOracle learnStore
      ("iot_device_9")).2.1 rfl
  · exact (learn_device_usage_branches (some ["reboot"]) getStatusOracle learnStore
      ("iot_device_9")).2.2 ["reboot"] rfl (by decide)

/- ## C9: append-only known commands outside explicit replacement -/

/-- The operations of `DeviceInteraction` that touch a device's stored
`commands`: executing an unrecognized command during normal operation, and
the learning entry point. -/
inductive InteractionOp where
  | unknownCmd (execOracle : String → Bool) (cmd : String)
  | learnUsage (doc : Option (List String)) (execOracle : String → Bool)

/-- Run one interaction operation against the store for a device id. -/
def applyInteractionOp : InteractionOp → Store DeviceRecord → String →
    CmdStatus × Store DeviceRecord
  | InteractionOp.unknownCmd execOracle cmd, coll, id =>
      execute_unknown_command execOracle coll id cmd
  | InteractionOp.learnUsage doc execOracle, coll, id =>
      learn_device_usage doc execOracle coll id

/-- Whether the operation performs an explicit replace (`$set`) of the
`commands` list: documentation learning with a non-empty yield, or
trial-and-error learning in which some candidate succeeds.  Executing an
unknown command never replaces, it only `$push`-es. -/
def opReplacesCommands (execOracle : String → Bool) : InteractionOp → Bool
  | InteractionOp.unknownCmd _ _ => false
  | InteractionOp.learnUsage (some cmds) _ => !cmds.isEmpty
  | InteractionOp.learnUsage none _ => !(possible_commands.filter execOracle).isEmpty

theorem commandsAt_update_push (coll : Store DeviceRecord) (id id' cmd : String) :
    ∀ c, c ∈ commandsAt coll id' →
      c ∈ commandsAt (update_document id (push_command cmd) coll).2 id' := by
  intro c hc
  by_cases hid : id' = id
  · subst hid
    rw [commandsAt, find_update_self]
    rw [commandsAt] at hc
    cases h : find_document id' coll with
    | none => rw [h] at hc; simp at hc
    | some d =>
      rw [h] at hc
      simp at hc
      simp [h, push_command, List.mem_append, hc]
  · rw [commandsAt, find_update_other hid]
    exact hc

/-- C9: a device's stored `known_commands` never loses a command except
through an explicit replace.  First conjunct: an interaction operation whose
run performs no `$set` replacement preserves every stored command of every
device.  Second conjunct: when an unrecognized command executes successfully
against an existing device record, it is appended at the end of that device's
command list and every previously stored command is preserved in place. -/
theorem known_commands_append_only :
    (∀ (op : InteractionOp) (execOracle : String → Bool) (coll : Store DeviceRecord)
        (id id' c : String),
        (match op with
         | InteractionOp.unknownCmd e _ => e
         | InteractionOp.learnUsage _ e => e) = execOracle →
        opReplacesCommands execOracle op = false →
        c ∈ commandsAt coll id' → c ∈ commandsAt (applyInteractionOp op coll id).2 id') ∧
    (∀ (execOracle : String → Bool) (coll : Store DeviceRecord) (id cmd : String),
        execOracle cmd = true → (find_document id coll).isSome →
        commandsAt (execute_unknown_command execOracle coll id cmd).2 id =
          commandsAt coll id ++ [cmd]) := by
  constructor
  · intro op execOracle coll id id' c hsame hrep hc
    cases op with
    | unknownCmd e cmd =>
      rw [applyInteractionOp, execute_unknown_command]
      by_cases he : e cmd
      · simp only [he, if_true, ite_true]
        exact commandsAt_update_push coll id id' cmd c hc
      · simp only [he, if_false, ite_false]
        exact hc
    | learnUsage doc e =>
      subst hsame
      cases doc with
      | some cmds =>
        rw [opReplacesCommands] at hrep
        simp [List.isEmpty_iff] at hrep
        subst hrep
        rw [applyInteractionOp, learn_device_usage]
        simp only [List.isEmpty_nil, if_true, ite_true]
        exact hc
      | none =>
        rw [opReplacesCommands] at hrep
        have hrep2 : (possible_commands.filter e).isEmpty = true := by
          revert hrep
          cases (possible_commands.filter e).isEmpty <;> simp
        rw [List.isEmpty_iff] at hrep2
        rw [applyInteractionOp, learn_device_usage,
          try_and_learn_device_nofail e coll id hrep2]
        exact hc
  · intro execOracle coll id cmd he hsome
    obtain ⟨d, hd⟩ := Option.isSome_iff_exists.mp hsome
    rw [execute_unknown_command]
    simp only [he, if_true, ite_true]
    rw [commandsAt, commandsAt, find_update_self, hd]
    simp [push_command]

/-- C9 witness: pushing a successfully executed unknown command `set_mode`
onto `iot_device_9` preserves the stored `get_status` and appends
`set_mode`. -/
theorem known_commands_append_only_witness :
    "get_status" ∈ commandsAt
      (applyInteractionOp (InteractionOp.unknownCmd (fun _ => true) ("set_mode"))
        [(("iot_device_9"), DeviceRecord.mk iotLocation ["get_status"])] ("iot_device_9")).2
      ("iot_device_9") ∧
    commandsAt (execute_unknown_command (fun _ => true)
        [(("iot_device_9"), DeviceRecord.mk iotLocation ["get_status"])]
        ("iot_device_9") ("set_mode")).2 ("iot_device_9") = ["get_status", "set_mode"] := by
  constructor
  · exact known_commands_append_only.1
      (InteractionOp.unknownCmd (fun _ => true) ("set_mode")) (fun _ => true)
      [(("iot_device_9"), DeviceRecord.mk iotLocation ["get_status"])]
      ("iot_device_9") ("iot_device_9") ("get_status") rfl rfl (by decide)
  · have h := known_commands_append_only.2 (fun _ => true)
      [(("iot_device_9"), DeviceRecord.mk iotLocation ["get_status"])]
      ("iot_device_9") ("set_mode") rfl (by decide)
    simpa using h

/- ## Bounded scanner concurrency (network_devices.py lines 73-81,
iot_devices.py lines 70-77)

The discovery pass creates one `limited_scan_ip_snmp` task per address and
guards the probe body with `asyncio.Semaphore(10)`.  The cooperative
scheduling of these tasks is embedded as a step relation: a state counts the
tasks waiting at the semaphore, the probes in flight (acquired a slot, not yet
completed), the completed probes, and the semaphore's free-slot counter. -/

/-- Scheduler state of one discovery pass. -/
structure ScanState where
  waiting : Nat
  running : Nat
  finished : Nat
  avail : Nat
deriving DecidableEq

/-- Initial state of a pass over `n` addresses with `asyncio.Semaphore(k)`:
all tasks are waiting to enter `async with semaphore` and all `k` slots are
free. -/
def scanInit (k n : Nat) : ScanState := ScanState.mk n 0 0 k

/-- One scheduler step: `acquire` moves a waiting task past the semaphore
(possible only when the counter is positive, which `acquire` decrements), and
`complete` ends an in-flight probe, releasing its slot on exit of the
`async with` block. -/
inductive ScanStep : ScanState → ScanState → Prop
  | acquire (s : ScanState) (hw : 0 < s.waiting) (ha : 0 < s.avail) :
      ScanStep s (ScanState.mk (s.waiting - 1) (s.running + 1) s.finished (s.avail - 1))
  | complete (s : ScanState) (hr : 0 < s.running) :
      ScanStep s (ScanState.mk s.waiting (s.running - 1) (s.finished + 1) (s.avail + 1))

/-- States reachable during a pass over `n` addresses with limit `k`. -/
def ScanReachable (k n : Nat) (s : ScanState) : Prop :=
  Relation.ReflTransGen ScanStep (scanInit k n) s

theorem scan_slot_invariant {k n : Nat} {s : ScanState} (h : ScanReachable k n s) :
    s.avail + s.running = k := by
  induction h with
  | refl => rfl
  | tail _ step ih =>
    cases step with
    | acquire hw ha => simp only [ScanState.mk.injEq] at *; omega
    | complete hr => simp only [ScanState.mk.injEq] at *; omega

/-- C7: with the source's `asyncio.Semaphore(10)`, every reachable scheduler
state of a discovery pass over any address count has at most 10 probes in
flight, and in a state with 10 probes in flight the semaphore counter is 0,
so no further task can pass the semaphore until an in-flight probe completes and
releases its slot. -/
theorem scan_concurrency_bounded (n : Nat) (s : ScanState)
    (h : ScanReachable 10 n s) :
    s.running ≤ 10 ∧ (s.running = 10 → s.avail = 0 ∧ ∀ t, ¬ ScanStep s t ∨ t.running ≤ 10) := by
  have hinv := scan_slot_invariant h
  refine ⟨by omega, fun hfull => ⟨by omega, fun t => ?_⟩⟩
  by_cases hstep : ScanStep s t
  · right
    cases hstep with
    | acquire hw ha => omega
    | complete hr => simp; omega
  · exact Or.inl hstep

/-- C7 witness: the initial state of a pass over the 254 addresses of a /24
sweep is reachable and satisfies the bound. -/
theorem scan_concurrency_bounded_witness :
    (scanInit 10 254).running ≤ 10 ∧
    ((scanInit 10 254).running = 10 →
      (scanInit 10 254).avail = 0 ∧ ∀ t, ¬ ScanStep (scanInit 10 254) t ∨ t.running ≤ 10) :=
  scan_concurrency_bounded 254 (scanInit 10 254) Relation.ReflTransGen.refl

/- ## Scanned address ranges (network_devices.py lines 79-81,
iot_devices.py line 76) -/

/-- Python `range(a, b)` over naturals: the integers `a, a+1, ..., b-1`. -/
def pyRange (a b : Nat) : List Nat := List.range' a (b - a)

/-- `num_devices_to_scan = 50` (network_devices.py line 79). -/
def num_devices_to_scan : Nat := 50

/-- Last octets probed by `discover_network_devices`:
`range(1, min(255, num_devices_to_scan + 1))`. -/
def networkScanIndices : List Nat := pyRange 1 (min 255 (num_devices_to_scan + 1))

/-- Last octets probed by `discover_iot_devices`: `range(1, 255)`. -/
def iotScanIndices : List Nat := pyRange 1 255

/-- Address probed for a last octet: `f"{network_prefix}.{i}"`. -/
def scanAddress (base : String) (i : Nat) : String := base ++ "." ++ toString i

/-- Addresses probed by `discover_network_devices` on the local /24. -/
def networkScanTargets (base : String) : List String :=
  networkScanIndices.map (scanAddress base)

/-- Addresses probed by `discover_iot_devices` on the local /24. -/
def iotScanTargets (base : String) : List String :=
  iotScanIndices.map (scanAddress base)

/-- C10: network discovery probes exactly the last octets 1 through 50 (the
hard-coded `num_devices_to_scan = 50`), so hosts .51 through .254 are never
probed by it, while IoT discovery probes exactly the last octets 1 through
254; the probed addresses are those octets rendered as `base.i`. -/
theorem scan_ranges (i : Nat) :
    (i ∈ networkScanIndices ↔ 1 ≤ i ∧ i ≤ 50) ∧
    (i ∈ iotScanIndices ↔ 1 ≤ i ∧ i ≤ 254) ∧
    (∀ base, i ∈ networkScanIndices → scanAddress base i ∈ networkScanTargets base) ∧
    (∀ base, i ∈ iotScanIndices → scanAddress base i ∈ iotScanTargets base) := by
  have hn : networkScanIndices = List.range' 1 50 := rfl
  have hi : iotScanIndices = List.range' 1 254 := rfl
  refine ⟨?_, ?_, ?_, ?_⟩
  · rw [hn, List.mem_range']
    constructor
    · rintro ⟨j, hj, rfl⟩; omega
    · intro h; exact ⟨i - 1, by omega, by omega⟩
  · rw [hi, List.mem_range']
    constructor
    · rintro ⟨j, hj, rfl⟩; omega
    · intro h; exact ⟨i - 1, by omega, by omega⟩
  · intro base h
    exact List.mem_map_of_mem (scanAddress base) h
  · intro base h
    exact List.mem_map_of_mem (scanAddress base) h

/-- C10 witness: octet 50 is probed by both discoveries, octet 51 only by IoT
discovery, octet 254 by neither network discovery nor skipped by IoT. -/
theorem scan_ranges_witness :
    (50 ∈ networkScanIndices) ∧ ¬ (51 ∈ networkScanIndices) ∧
    (254 ∈ iotScanIndices) ∧ ¬ (255 ∈ iotScanIndices) := by
  refine ⟨?_, ?_, ?_, ?_⟩
  · exact (scan_ranges 50).1.mpr (by omega)
  · intro h
    have := (scan_ranges 51).1.mp h
    omega
  · exact (scan_ranges 254).2.1.mpr (by omega)
  · intro h
    have := (scan_ranges 255).2.1.mp h
    omega

end SAI
